import Mathlib

/-
  Verification of the INDI WeatherInterface parameter-range evaluator
  (libs/indibase/indiweatherinterface.h).

  The repository sources contain only the interface header; the member
  function bodies live in indiweatherinterface.cpp, which is not among the
  sources. The operations below are therefore modelled from the
  specification (spec.md sections 3, 4.1, 4.2, 4.4) together with the
  doc comments of the header. Doubles are embedded as rationals, the
  IPState enum of the INDI framework as a four-constructor inductive,
  and the Parameter Store (spread in the C++ code over ParametersNP,
  ParametersRangeNP and critialParametersLP) as a single list of records.
-/

namespace INDI

/-- State values of the INDI property protocol as used by the weather
interface: IPS_IDLE encodes Unknown, IPS_OK encodes Ok, IPS_BUSY encodes
Warning, IPS_ALERT encodes Alert. -/
inductive IPState where
  | IPS_IDLE
  | IPS_OK
  | IPS_BUSY
  | IPS_ALERT
  deriving DecidableEq, Repr

/-- Modelled from the spec: one entry of the Parameter Store (spec.md section 3),
merging the per-parameter data that the C++ code spreads over ParametersNP
(name, label, value), ParametersRangeNP (MIN_OK, MAX_OK, PERCENT_WARNING,
FLIP_RANGE_TEST) and critialParametersLP (critical flag and last state). -/
structure Parameter where
  name : String
  label : String
  value : ℚ
  numMinOk : ℚ
  numMaxOk : ℚ
  percWarning : ℚ
  flipWarning : Bool
  isCritical : Bool
  lastState : IPState
  deriving DecidableEq, Repr

/-- The Parameter Store: an ordered collection of parameters. -/
abbrev Store := List Parameter

/-- Look a parameter up by name: the first entry whose name matches. -/
def findParameter (s : Store) (name : String) : Option Parameter :=
  s.find? (fun p => p.name = name)

/-- Modelled from the spec: the Range Classifier of spec.md section 4.2
applied to a single parameter record (the body of checkParameterState in
indiweatherinterface.cpp is not among the sources). Without flipWarning,
values in the band yield IPS_OK, values within warningSpan outside of it
yield IPS_BUSY, the rest IPS_ALERT. With flipWarning, the warning zone is
the inward margin of width warningSpan inside the band, interior values
yield IPS_OK, and values outside the band yield IPS_ALERT. -/
def rangeState (p : Parameter) : IPState :=
  let warningSpan := (p.numMaxOk - p.numMinOk) * p.percWarning
  if p.flipWarning then
    if p.value < p.numMinOk ∨ p.numMaxOk < p.value then .IPS_ALERT
    else if p.value ≤ p.numMinOk + warningSpan ∨ p.numMaxOk - warningSpan ≤ p.value then
      .IPS_BUSY
    else .IPS_OK
  else
    if p.numMinOk ≤ p.value ∧ p.value ≤ p.numMaxOk then .IPS_OK
    else if (p.numMinOk - warningSpan ≤ p.value ∧ p.value < p.numMinOk) ∨
        (p.numMaxOk < p.value ∧ p.value ≤ p.numMaxOk + warningSpan) then .IPS_BUSY
    else .IPS_ALERT

/-- Modelled from the spec: checkParameterState (header lines 143-151,
spec.md section 4.2). Returns IPS_IDLE when the name is not found,
otherwise classifies the current value of the parameter against its
configured range. -/
def checkParameterState (s : Store) (name : String) : IPState :=
  match findParameter s name with
  | none => .IPS_IDLE
  | some p => rangeState p

/-- Modelled from the spec: addParameter (header lines 109-125, spec.md
section 4.1). Inserts a new parameter with the given range; a no-op when
the name already exists. The new parameter is not critical and its last
state is Unknown. -/
def addParameter (s : Store) (name label : String) (numMinOk numMaxOk percWarning : ℚ)
    (flipWarning : Bool) : Store :=
  if s.any (fun p => p.name = name) then s
  else s ++ [{ name := name, label := label, value := 0, numMinOk := numMinOk,
               numMaxOk := numMaxOk, percWarning := percWarning,
               flipWarning := flipWarning, isCritical := false,
               lastState := .IPS_IDLE }]

/-- Modelled from the spec: setParameterValue (header lines 136-141, spec.md
section 4.1). Overwrites the current value of the named parameter; the
header gives it a void return type, so no failure signal exists at the
interface, and the spec (section 9) requires that an unknown name must not
corrupt the store, so the model leaves the store unchanged in that case. -/
def setParameterValue (s : Store) (name : String) (v : ℚ) : Store :=
  s.map (fun p => if p.name = name then { p with value := v } else p)

/-- Modelled from the spec: setCriticalParameter (header lines 127-134,
spec.md section 4.1). Marks an existing parameter critical and returns
true; returns false, leaving the store unchanged, when the name is not
found. -/
def setCriticalParameter (s : Store) (name : String) : Bool × Store :=
  if s.any (fun p => p.name = name) then
    (true, s.map (fun p => if p.name = name then { p with isCritical := true } else p))
  else (false, s)

/-- Severity rank of a classification, with precedence
Alert > Warning > Ok > Unknown (spec.md section 3). -/
def severityRank : IPState → Nat
  | .IPS_IDLE => 0
  | .IPS_OK => 1
  | .IPS_BUSY => 2
  | .IPS_ALERT => 3

/-- The more severe of two classifications. -/
def moreSevere (a b : IPState) : IPState :=
  if severityRank a < severityRank b then b else a

/-- Modelled from the spec: the aggregate severity that syncCriticalParameters
writes into critialParametersLP (spec.md sections 3 and 4.4): the worst
classification among the critical parameters, IPS_IDLE when there is none. -/
def aggregateState (s : Store) : IPState :=
  ((s.filter (fun p => p.isCritical)).map rangeState).foldl moreSevere .IPS_IDLE

/-- Modelled from the spec: syncCriticalParameters (header lines 153-157,
spec.md section 4.4). Classifies every critical parameter, reports whether
any classification differs from the recorded last state, and records the
new classifications. -/
def syncCriticalParameters (s : Store) : Bool × Store :=
  let changed := (s.filter (fun p => p.isCritical)).any (fun p => rangeState p ≠ p.lastState)
  (changed, s.map (fun p => if p.isCritical then { p with lastState := rangeState p } else p))

/-- Distance of a value from the Ok band: zero inside the band, the gap to
the nearer bound outside of it. -/
def rangeDistance (numMinOk numMaxOk v : ℚ) : ℚ :=
  max 0 (max (numMinOk - v) (v - numMaxOk))

/-- One registration request, bundling the arguments of addParameter. -/
structure AddRequest where
  name : String
  label : String
  numMinOk : ℚ
  numMaxOk : ℚ
  percWarning : ℚ
  flipWarning : Bool

/-- A sequence of addParameter calls, applied in order. -/
def registerAll (s : Store) (reqs : List AddRequest) : Store :=
  reqs.foldl
    (fun acc r => addParameter acc r.name r.label r.numMinOk r.numMaxOk r.percWarning
      r.flipWarning) s

/-- The non-flipped scenario store of the spec: the parameter wind registered
with numMinOk = 0, numMaxOk = 20, percWarning = 0.25, flipWarning = false. -/
def windStore : Store := addParameter [] "wind" "Wind" 0 20 (1/4) false

/-- The flipped scenario store of the spec: the same parameter registered
with flipWarning = true. -/
def windStoreFlipped : Store := addParameter [] "wind" "Wind" 0 20 (1/4) true

/-- The record that windStore holds right after registration. -/
def windParameter : Parameter :=
  { name := "wind", label := "Wind", value := 0, numMinOk := 0, numMaxOk := 20,
    percWarning := 1/4, flipWarning := false, isCritical := false, lastState := .IPS_IDLE }

/-- The record that windStoreFlipped holds right after registration. -/
def windParameterFlipped : Parameter :=
  { windParameter with flipWarning := true }

/-- A second, non-critical parameter used by the aggregate witnesses. -/
def humParameter : Parameter :=
  { name := "hum", label := "Humidity", value := 0, numMinOk := 0, numMaxOk := 100,
    percWarning := 1/10, flipWarning := false, isCritical := false, lastState := .IPS_IDLE }

/-- A store with the critical parameter wind and the non-critical parameter
hum. -/
def demoStore : Store := [{ windParameter with isCritical := true }, humParameter]

/-! Helper lemmas shared by the claim theorems. -/

theorem findParameter_map (s : Store) (name : String) (g : Parameter → Parameter)
    (hg : ∀ p, (g p).name = p.name) :
    findParameter (s.map g) name = (findParameter s name).map g := by
  induction s with
  | nil => rfl
  | cons q t ih =>
    by_cases h : q.name = name
    · have h2 : (g q).name = name := by rw [hg q]; exact h
      simp [findParameter, List.find?_cons_of_pos, h, h2]
    · have h2 : ¬ (g q).name = name := by rw [hg q]; exact h
      simpa [findParameter, List.find?_cons_of_neg, h, h2] using ih

theorem findParameter_name (s : Store) (name : String) (p : Parameter)
    (h : findParameter s name = some p) : p.name = name := by
  have := List.find?_some h
  simpa using this

theorem findParameter_mem (s : Store) (name : String) (p : Parameter)
    (h : findParameter s name = some p) : p ∈ s :=
  List.mem_of_find?_eq_some h

theorem any_name_of_find (s : Store) (name : String) (p : Parameter)
    (h : findParameter s name = some p) : s.any (fun p => p.name = name) = true := by
  rw [List.any_eq_true]
  exact ⟨p, findParameter_mem s name p h, by simp [findParameter_name s name p h]⟩

theorem not_any_name_of_find_none (s : Store) (name : String)
    (h : findParameter s name = none) : s.any (fun p => p.name = name) = false := by
  rw [findParameter, List.find?_eq_none] at h
  rw [List.any_eq_false]
  intro p hp
  exact h p hp

/-- C6: looking a name up that is not present in the Parameter Store yields
the Unknown classification IPS_IDLE instead of failing. -/
theorem checkParameterState_unknown_name (s : Store) (name : String)
    (h : findParameter s name = none) : checkParameterState s name = .IPS_IDLE := by
  simp [checkParameterState, h]

/-- Witness for C6 at the empty store. -/
theorem checkParameterState_unknown_name_witness :
    checkParameterState ([] : Store) "wind" = .IPS_IDLE :=
  checkParameterState_unknown_name [] "wind" rfl

/-- C10: setParameterValue exposes no failure signal (it returns only the
updated store, matching the void return type of the header); on a name that
is not present it is a silent no-op leaving every parameter unchanged. -/
theorem setParameterValue_unknown_name_noop (s : Store) (name : String) (v : ℚ)
    (h : findParameter s name = none) : setParameterValue s name v = s := by
  rw [findParameter, List.find?_eq_none] at h
  unfold setParameterValue
  have hid : ∀ p ∈ s, (if p.name = name then { p with value := v } else p) = p := by
    intro p hp
    have hne := h p hp
    simp at hne
    simp [hne]
  rw [List.map_congr_left hid]
  simp

/-- Witness for C10: updating the absent parameter hum leaves the wind store
unchanged. -/
theorem setParameterValue_unknown_name_noop_witness :
    setParameterValue windStore "hum" 5 = windStore :=
  setParameterValue_unknown_name_noop windStore "hum" 5 rfl

/-- C7: setCriticalParameter on an unknown name returns false and leaves the
store entirely unchanged; on a registered name it returns true and marks that
parameter critical, all its other fields intact. -/
theorem setCriticalParameter_spec (s : Store) (name : String) :
    (findParameter s name = none → setCriticalParameter s name = (false, s)) ∧
    (∀ p : Parameter, findParameter s name = some p →
      (setCriticalParameter s name).1 = true ∧
      findParameter (setCriticalParameter s name).2 name =
        some { p with isCritical := true }) := by
  constructor
  · intro h
    simp [setCriticalParameter, not_any_name_of_find_none s name h]
  · intro p hp
    have hany := any_name_of_find s name p hp
    constructor
    · simp [setCriticalParameter, hany]
    · have hmap := findParameter_map s name
        (fun q => if q.name = name then { q with isCritical := true } else q)
        (by intro q; by_cases h : q.name = name <;> simp [h])
      simp only [setCriticalParameter, hany, if_true]
      rw [hmap, hp]
      simp [findParameter_name s name p hp]

/-- Witness for C7: marking the absent parameter gust fails and preserves the
store, while marking the registered parameter wind succeeds. -/
theorem setCriticalParameter_spec_witness :
    setCriticalParameter windStore "gust" = (false, windStore) ∧
    (setCriticalParameter windStore "wind").1 = true := by
  constructor
  · exact (setCriticalParameter_spec windStore "gust").1 rfl
  · refine ((setCriticalParameter_spec windStore "wind").2 windParameter ?_).1
    norm_num [findParameter, windStore, addParameter, windParameter]

/-- C8: registering a name that already exists is a no-op, a single
addParameter call preserves uniqueness of names, and hence every sequence of
addParameter calls starting from the empty store yields a store in which each
name occurs at most once. -/
theorem addParameter_unique_names :
    (∀ (s : Store) (name label : String) (a b c : ℚ) (f : Bool),
      ((∃ p ∈ s, p.name = name) → addParameter s name label a b c f = s) ∧
      ((s.map Parameter.name).Nodup →
        ((addParameter s name label a b c f).map Parameter.name).Nodup)) ∧
    (∀ reqs : List AddRequest, ((registerAll [] reqs).map Parameter.name).Nodup) := by
  have step : ∀ (s : Store) (name label : String) (a b c : ℚ) (f : Bool),
      ((∃ p ∈ s, p.name = name) → addParameter s name label a b c f = s) ∧
      ((s.map Parameter.name).Nodup →
        ((addParameter s name label a b c f).map Parameter.name).Nodup) := by
    intro s name label a b c f
    constructor
    · rintro ⟨p, hp, hname⟩
      have hany : s.any (fun p => p.name = name) = true :=
        List.any_eq_true.mpr ⟨p, hp, by simp [hname]⟩
      simp [addParameter, hany]
    · intro hnd
      by_cases hany : s.any (fun p => p.name = name) = true
      · simpa [addParameter, hany] using hnd
      · have hnot : ∀ p ∈ s, ¬ p.name = name := by
          intro p hp hname
          exact hany (List.any_eq_true.mpr ⟨p, hp, by simp [hname]⟩)
        simp only [addParameter, hany, if_false, Bool.false_eq_true]
        rw [List.map_append]
        rw [List.nodup_append]
        refine ⟨hnd, List.nodup_singleton _, ?_⟩
        intro x hx
        simp only [List.mem_map] at hx
        obtain ⟨p, hp, hpx⟩ := hx
        simp only [List.map_cons, List.map_nil, List.mem_singleton]
        intro hcontra
        exact absurd (hpx.trans hcontra) (hnot p hp)
  refine ⟨step, ?_⟩
  intro reqs
  have general : ∀ (reqs : List AddRequest) (s : Store),
      (s.map Parameter.name).Nodup → ((registerAll s reqs).map Parameter.name).Nodup := by
    intro reqs
    induction reqs with
    | nil => intro s h; exact h
    | cons r t ih =>
      intro s h
      exact ih _ ((step s r.name r.label r.numMinOk r.numMaxOk r.percWarning r.flipWarning).2 h)
  exact general reqs [] (by simp)

/-- Witness for C8: re-registering wind is a no-op, and registering wind then
hum from the empty store yields distinct names. -/
theorem addParameter_unique_names_witness :
    addParameter windStore "wind" "Wind2" 1 2 0 false = windStore ∧
    ((registerAll []
      [{ name := "wind", label := "Wind", numMinOk := 0, numMaxOk := 20,
         percWarning := 1/4, flipWarning := false },
       { name := "hum", label := "Humidity", numMinOk := 0, numMaxOk := 100,
         percWarning := 1/10, flipWarning := false }]).map Parameter.name).Nodup := by
  constructor
  · refine (addParameter_unique_names.1 windStore "wind" "Wind2" 1 2 0 false).1 ?_
    refine ⟨windParameter, ?_, rfl⟩
    norm_num [windStore, addParameter, windParameter]
  · exact addParameter_unique_names.2 _

/-- C1: for a registered parameter with flipWarning = false, with
warningSpan = (numMaxOk - numMinOk) * percWarning, a value inside
[numMinOk, numMaxOk] is classified IPS_OK, a value in
[numMinOk - warningSpan, numMinOk) or (numMaxOk, numMaxOk + warningSpan]
is classified IPS_BUSY (Warning), and any other value IPS_ALERT. -/
theorem checkParameterState_not_flipped_spec (s : Store) (name : String) (p : Parameter)
    (hfind : findParameter s name = some p) (hflip : p.flipWarning = false) :
    (p.numMinOk ≤ p.value ∧ p.value ≤ p.numMaxOk →
      checkParameterState s name = .IPS_OK) ∧
    ((p.numMinOk - (p.numMaxOk - p.numMinOk) * p.percWarning ≤ p.value ∧
        p.value < p.numMinOk) ∨
     (p.numMaxOk < p.value ∧
        p.value ≤ p.numMaxOk + (p.numMaxOk - p.numMinOk) * p.percWarning) →
      checkParameterState s name = .IPS_BUSY) ∧
    (¬(p.numMinOk ≤ p.value ∧ p.value ≤ p.numMaxOk) →
     ¬((p.numMinOk - (p.numMaxOk - p.numMinOk) * p.percWarning ≤ p.value ∧
         p.value < p.numMinOk) ∨
       (p.numMaxOk < p.value ∧
         p.value ≤ p.numMaxOk + (p.numMaxOk - p.numMinOk) * p.percWarning)) →
      checkParameterState s name = .IPS_ALERT) := by
  have hc : checkParameterState s name = rangeState p := by
    simp [checkParameterState, hfind]
  rw [hc]
  simp only [rangeState, hflip, Bool.false_eq_true, if_false]
  refine ⟨fun h => ?_, fun h => ?_, fun h1 h2 => ?_⟩
  · rw [if_pos h]
  · have hnot : ¬(p.numMinOk ≤ p.value ∧ p.value ≤ p.numMaxOk) := by
      rcases h with ⟨_, h2⟩ | ⟨h2, _⟩
      · intro hin
        exact absurd h2 (not_lt.mpr hin.1)
      · intro hin
        exact absurd h2 (not_lt.mpr hin.2)
    rw [if_neg hnot, if_pos h]
  · rw [if_neg h1, if_neg h2]

/-- Witness for C1: the wind parameter at value 10 is inside the Ok band and
is classified IPS_OK. -/
theorem checkParameterState_not_flipped_spec_witness :
    checkParameterState (setParameterValue windStore "wind" 10) "wind" = .IPS_OK := by
  refine (checkParameterState_not_flipped_spec (setParameterValue windStore "wind" 10)
    "wind" { windParameter with value := 10 } ?_ rfl).1 (by norm_num [windParameter])
  norm_num [findParameter, setParameterValue, windStore, addParameter, windParameter]

/-- C2 counterexample: the claim states that the wind parameter
(numMinOk = 0, numMaxOk = 20, percWarning = 0.25, not flipped) at value 25 is
classified Ok; the classifier puts 25 at the very edge of the warning band
(warnMax = 20 + 5 = 25) and returns IPS_BUSY (Warning), not IPS_OK. -/
theorem scenario_value25_not_ok :
    checkParameterState (setParameterValue windStore "wind" 25) "wind" = .IPS_BUSY ∧
    IPState.IPS_BUSY ≠ IPState.IPS_OK := by
  constructor
  · norm_num [checkParameterState, findParameter, setParameterValue, windStore,
      addParameter, rangeState]
  · intro h
    cases h

/-- C2 amended: for the wind parameter (numMinOk = 0, numMaxOk = 20,
percWarning = 0.25, not flipped), value 25 is classified Warning (IPS_BUSY),
value 22 Warning (IPS_BUSY), and value 30 Alert (IPS_ALERT). -/
theorem scenario_wind_states :
    checkParameterState (setParameterValue windStore "wind" 25) "wind" = .IPS_BUSY ∧
    checkParameterState (setParameterValue windStore "wind" 22) "wind" = .IPS_BUSY ∧
    checkParameterState (setParameterValue windStore "wind" 30) "wind" = .IPS_ALERT := by
  refine ⟨?_, ?_, ?_⟩ <;>
    norm_num [checkParameterState, findParameter, setParameterValue, windStore,
      addParameter, rangeState]

/-- C3 counterexample: the claim states that every value strictly outside
[numMinOk, numMaxOk] is classified Alert in both flipped and non-flipped
modes; in the non-flipped mode the value 22 of the wind parameter is strictly
outside [0, 20] yet is classified IPS_BUSY (Warning), not IPS_ALERT. -/
theorem outside_band_not_alert_when_not_flipped :
    (20 : ℚ) < 22 ∧
    checkParameterState (setParameterValue windStore "wind" 22) "wind" = .IPS_BUSY ∧
    IPState.IPS_BUSY ≠ IPState.IPS_ALERT := by
  refine ⟨by norm_num, ?_, fun h => by cases h⟩
  norm_num [checkParameterState, findParameter, setParameterValue, windStore,
    addParameter, rangeState]

/-- C3 amended: for every parameter registered with flipWarning = true, the
Warning zone lies inside the Ok band (a value of the band within an inward
margin of width warningSpan from a boundary is classified IPS_BUSY, a value
of the band beyond both margins IPS_OK, and every value strictly outside the
band IPS_ALERT); in both flipped and non-flipped modes every value classified
IPS_ALERT is strictly outside [numMinOk, numMaxOk]; in particular, for
numMinOk = 0, numMaxOk = 20, percWarning = 0.25, flipped, value 19 yields
Warning, value 10 yields Ok, and value 21 yields Alert. -/
theorem flipped_warning_inside_and_alert_outside :
    (∀ (s : Store) (name : String) (p : Parameter), findParameter s name = some p →
      p.flipWarning = true →
      ((p.numMinOk ≤ p.value ∧ p.value ≤ p.numMaxOk ∧
          (p.value ≤ p.numMinOk + (p.numMaxOk - p.numMinOk) * p.percWarning ∨
           p.numMaxOk - (p.numMaxOk - p.numMinOk) * p.percWarning ≤ p.value) →
        checkParameterState s name = .IPS_BUSY) ∧
       (p.numMinOk ≤ p.value ∧ p.value ≤ p.numMaxOk ∧
          p.numMinOk + (p.numMaxOk - p.numMinOk) * p.percWarning < p.value ∧
          p.value < p.numMaxOk - (p.numMaxOk - p.numMinOk) * p.percWarning →
        checkParameterState s name = .IPS_OK) ∧
       (p.value < p.numMinOk ∨ p.numMaxOk < p.value →
        checkParameterState s name = .IPS_ALERT))) ∧
    (∀ (s : Store) (name : String) (p : Parameter), findParameter s name = some p →
      checkParameterState s name = .IPS_ALERT →
      p.value < p.numMinOk ∨ p.numMaxOk < p.value) ∧
    (checkParameterState (setParameterValue windStoreFlipped "wind" 19) "wind" = .IPS_BUSY ∧
     checkParameterState (setParameterValue windStoreFlipped "wind" 10) "wind" = .IPS_OK ∧
     checkParameterState (setParameterValue windStoreFlipped "wind" 21) "wind" = .IPS_ALERT) := by
  refine ⟨?_, ?_, ?_⟩
  · intro s name p hfind hflip
    have hc : checkParameterState s name = rangeState p := by
      simp [checkParameterState, hfind]
    rw [hc]
    simp only [rangeState, hflip, if_true]
    refine ⟨fun h => ?_, fun h => ?_, fun h => ?_⟩
    · obtain ⟨h1, h2, h3⟩ := h
      have hout : ¬(p.value < p.numMinOk ∨ p.numMaxOk < p.value) := by
        push_neg
        exact ⟨h1, h2⟩
      rw [if_neg hout, if_pos h3]
    · obtain ⟨h1, h2, h3, h4⟩ := h
      have hout : ¬(p.value < p.numMinOk ∨ p.numMaxOk < p.value) := by
        push_neg
        exact ⟨h1, h2⟩
      have hin : ¬(p.value ≤ p.numMinOk + (p.numMaxOk - p.numMinOk) * p.percWarning ∨
          p.numMaxOk - (p.numMaxOk - p.numMinOk) * p.percWarning ≤ p.value) := by
        push_neg
        exact ⟨h3, h4⟩
      rw [if_neg hout, if_neg hin]
    · rw [if_pos h]
  · intro s name p hfind halert
    have hc : checkParameterState s name = rangeState p := by
      simp [checkParameterState, hfind]
    rw [hc] at halert
    by_contra hcon
    push_neg at hcon
    obtain ⟨h1, h2⟩ := hcon
    have h1le : p.numMinOk ≤ p.value := h1
    have h2le : p.value ≤ p.numMaxOk := h2
    have hout : ¬(p.value < p.numMinOk ∨ p.numMaxOk < p.value) := by
      push_neg
      exact ⟨h1le, h2le⟩
    cases hfw : p.flipWarning with
    | true =>
      simp only [rangeState, hfw, if_true, if_neg hout] at halert
      split at halert <;> cases halert
    | false =>
      have hin : p.numMinOk ≤ p.value ∧ p.value ≤ p.numMaxOk := ⟨h1le, h2le⟩
      simp only [rangeState, hfw, Bool.false_eq_true, if_false, if_pos hin] at halert
      cases halert
  · refine ⟨?_, ?_, ?_⟩ <;>
      norm_num [checkParameterState, findParameter, setParameterValue, windStoreFlipped,
        addParameter, rangeState]

/-- Witness for C3: the flipped wind parameter at value 16 is inside the
inward warning margin and is classified IPS_BUSY, and from the value 21 being
classified IPS_ALERT the theorem yields that 21 lies strictly outside the
band. -/
theorem flipped_warning_inside_and_alert_outside_witness :
    checkParameterState (setParameterValue windStoreFlipped "wind" 16) "wind" = .IPS_BUSY ∧
    ((21 : ℚ) < 0 ∨ (20 : ℚ) < 21) := by
  constructor
  · refine (flipped_warning_inside_and_alert_outside.1
      (setParameterValue windStoreFlipped "wind" 16) "wind"
      { windParameterFlipped with value := 16 } ?_ rfl).1
        (by norm_num [windParameterFlipped, windParameter])
    norm_num [findParameter, setParameterValue, windStoreFlipped, addParameter,
      windParameterFlipped, windParameter]
  · refine flipped_warning_inside_and_alert_outside.2.1
      (setParameterValue windStoreFlipped "wind" 21) "wind"
      { windParameterFlipped with value := 21 } ?_ ?_
    · norm_num [findParameter, setParameterValue, windStoreFlipped, addParameter,
        windParameterFlipped, windParameter]
    · norm_num [checkParameterState, findParameter, setParameterValue, windStoreFlipped,
        addParameter, rangeState]

theorem rangeState_update_lastState (p : Parameter) (st : IPState) :
    rangeState { p with lastState := st } = rangeState p := rfl

/-- C4: syncCriticalParameters reports a change exactly when some critical
parameter now classifies differently from its recorded last state, and a
second call right after a first one, with no intervening value or range
change, reports no change. -/
theorem syncCriticalParameters_change_detection (s : Store) :
    ((syncCriticalParameters s).1 = true ↔
      ∃ p ∈ s, p.isCritical = true ∧ rangeState p ≠ p.lastState) ∧
    (syncCriticalParameters (syncCriticalParameters s).2).1 = false := by
  constructor
  · simp only [syncCriticalParameters, List.any_eq_true, List.mem_filter]
    constructor
    · rintro ⟨p, ⟨hp, hc⟩, hne⟩
      exact ⟨p, hp, by simpa using hc, by simpa using hne⟩
    · rintro ⟨p, hp, hc, hne⟩
      exact ⟨p, ⟨hp, by simpa using hc⟩, by simpa using hne⟩
  · simp only [syncCriticalParameters]
    rw [List.any_eq_false]
    intro p hp
    rw [List.mem_filter] at hp
    obtain ⟨hpm, hc⟩ := hp
    rw [List.mem_map] at hpm
    obtain ⟨q, _, hq⟩ := hpm
    simp only [ne_eq, decide_eq_true_eq, not_not]
    by_cases hqc : q.isCritical
    · rw [if_pos hqc] at hq
      subst hq
      rw [rangeState_update_lastState]
    · rw [if_neg hqc] at hq
      subst hq
      exact absurd hc hqc

theorem severityRank_le_three (st : IPState) : severityRank st ≤ 3 := by
  cases st <;> simp [severityRank]

theorem le_foldl_moreSevere_init (l : List IPState) :
    ∀ a : IPState, severityRank a ≤ severityRank (l.foldl moreSevere a) := by
  induction l with
  | nil => intro a; exact le_refl _
  | cons b t ih =>
    intro a
    refine le_trans ?_ (ih (moreSevere a b))
    unfold moreSevere
    split_ifs with h
    · exact le_of_lt h
    · exact le_refl _

theorem le_foldl_moreSevere_mem (l : List IPState) (x : IPState) (hx : x ∈ l) :
    ∀ a : IPState, severityRank x ≤ severityRank (l.foldl moreSevere a) := by
  induction l with
  | nil => cases hx
  | cons b t ih =>
    intro a
    rcases List.mem_cons.mp hx with h | h
    · subst h
      refine le_trans ?_ (le_foldl_moreSevere_init t (moreSevere a x))
      unfold moreSevere
      split_ifs with h
      · exact le_refl _
      · exact le_of_not_lt h
    · exact ih h (moreSevere a b)

theorem foldl_moreSevere_cases (l : List IPState) :
    ∀ a : IPState, l.foldl moreSevere a = a ∨ l.foldl moreSevere a ∈ l := by
  induction l with
  | nil => intro a; exact Or.inl rfl
  | cons b t ih =>
    intro a
    rcases ih (moreSevere a b) with h | h
    · rw [List.foldl_cons, h]
      unfold moreSevere
      split_ifs
      · exact Or.inr (List.mem_cons_self b t)
      · exact Or.inl rfl
    · exact Or.inr (List.mem_cons_of_mem b h)

theorem criticalStates_setParameterValue (s : Store) (name : String) (v : ℚ)
    (h : ∀ p ∈ s, p.name = name → p.isCritical = false) :
    ((setParameterValue s name v).filter (fun p => p.isCritical)).map rangeState =
      (s.filter (fun p => p.isCritical)).map rangeState := by
  induction s with
  | nil => rfl
  | cons q t ih =>
    have ht : ∀ p ∈ t, p.name = name → p.isCritical = false :=
      fun p hp => h p (List.mem_cons_of_mem q hp)
    by_cases hn : q.name = name
    · have hc : q.isCritical = false := h q (List.mem_cons_self q t) hn
      simp only [setParameterValue, List.map_cons] at *
      rw [if_pos hn]
      rw [List.filter_cons, List.filter_cons]
      simp only [hc, Bool.false_eq_true, if_false]
      exact ih ht
    · simp only [setParameterValue, List.map_cons] at *
      rw [if_neg hn]
      rw [List.filter_cons, List.filter_cons]
      by_cases hc : q.isCritical
      · simp only [hc, if_true, List.map_cons]
        rw [ih ht]
      · simp only [hc, Bool.false_eq_true, if_false]
        exact ih ht

/-- C5: the aggregate severity is the most severe classification among the
critical parameters under the precedence Alert > Warning > Ok > Unknown (it
dominates every critical classification and, unless it is the default
IPS_IDLE of an empty critical set, is attained by some critical parameter),
and changing the value of any non-critical parameter never changes it. -/
theorem aggregate_severity_critical_only (s : Store) :
    (∀ p ∈ s, p.isCritical = true →
      severityRank (rangeState p) ≤ severityRank (aggregateState s)) ∧
    (aggregateState s = .IPS_IDLE ∨
      ∃ p ∈ s, p.isCritical = true ∧ aggregateState s = rangeState p) ∧
    (∀ (name : String) (v : ℚ), (∀ p ∈ s, p.name = name → p.isCritical = false) →
      aggregateState (setParameterValue s name v) = aggregateState s) := by
  refine ⟨?_, ?_, ?_⟩
  · intro p hp hc
    have hmem : rangeState p ∈ (s.filter (fun p => p.isCritical)).map rangeState :=
      List.mem_map_of_mem rangeState (List.mem_filter.mpr ⟨hp, by simp [hc]⟩)
    exact le_foldl_moreSevere_mem _ _ hmem .IPS_IDLE
  · rcases foldl_moreSevere_cases ((s.filter (fun p => p.isCritical)).map rangeState)
      .IPS_IDLE with h | h
    · exact Or.inl h
    · rw [List.mem_map] at h
      obtain ⟨p, hp, hps⟩ := h
      rw [List.mem_filter] at hp
      exact Or.inr ⟨p, hp.1, by simpa using hp.2, hps.symm⟩
  · intro name v h
    unfold aggregateState
    rw [criticalStates_setParameterValue s name v h]

/-- Witness for C5: in the demo store the critical wind classification is
dominated by the aggregate, and updating the non-critical parameter hum
leaves the aggregate unchanged. -/
theorem aggregate_severity_critical_only_witness :
    severityRank (rangeState { windParameter with isCritical := true }) ≤
      severityRank (aggregateState demoStore) ∧
    aggregateState (setParameterValue demoStore "hum" 50) = aggregateState demoStore := by
  constructor
  · exact (aggregate_severity_critical_only demoStore).1 _ (List.mem_cons_self _ _) rfl
  · refine (aggregate_severity_critical_only demoStore).2.2 "hum" 50 ?_
    intro p hp hname
    rcases List.mem_cons.mp hp with h1 | h1
    · subst h1
      exact absurd hname (by simp [windParameter])
    · rcases List.mem_cons.mp h1 with h2 | h2
      · subst h2
        rfl
      · cases h2

theorem rd_nonneg (mn mx v : ℚ) : 0 ≤ rangeDistance mn mx v := le_max_left _ _

theorem rd_eq_zero_iff (mn mx v : ℚ) :
    rangeDistance mn mx v = 0 ↔ mn ≤ v ∧ v ≤ mx := by
  unfold rangeDistance
  rw [max_eq_left_iff, max_le_iff]
  constructor
  · rintro ⟨h1, h2⟩
    constructor <;> linarith
  · rintro ⟨h1, h2⟩
    constructor <;> linarith

theorem rd_pos_outside (mn mx v : ℚ) (h : 0 < rangeDistance mn mx v) :
    v < mn ∨ mx < v := by
  by_contra hc
  push_neg at hc
  rw [(rd_eq_zero_iff mn mx v).mpr ⟨hc.1, hc.2⟩] at h
  exact lt_irrefl 0 h

theorem rd_of_lt (mn mx v : ℚ) (hmm : mn ≤ mx) (h : v < mn) :
    rangeDistance mn mx v = mn - v := by
  unfold rangeDistance
  have hin : max (mn - v) (v - mx) = mn - v := max_eq_left (by linarith)
  rw [hin]
  exact max_eq_right (by linarith)

theorem rd_of_gt (mn mx v : ℚ) (hmm : mn ≤ mx) (h : mx < v) :
    rangeDistance mn mx v = v - mx := by
  unfold rangeDistance
  have hin : max (mn - v) (v - mx) = v - mx := max_eq_right (by linarith)
  rw [hin]
  exact max_eq_right (by linarith)

theorem rangeState_not_flipped_distance (p : Parameter) (hf : p.flipWarning = false)
    (hmm : p.numMinOk ≤ p.numMaxOk) :
    rangeState p =
      if rangeDistance p.numMinOk p.numMaxOk p.value = 0 then .IPS_OK
      else if rangeDistance p.numMinOk p.numMaxOk p.value ≤
          (p.numMaxOk - p.numMinOk) * p.percWarning then .IPS_BUSY
      else .IPS_ALERT := by
  by_cases h0 : rangeDistance p.numMinOk p.numMaxOk p.value = 0
  · have hin := (rd_eq_zero_iff _ _ _).mp h0
    simp only [rangeState, hf, Bool.false_eq_true, if_false]
    rw [if_pos hin, if_pos h0]
  · have hpos : 0 < rangeDistance p.numMinOk p.numMaxOk p.value :=
      lt_of_le_of_ne (rd_nonneg _ _ _) (Ne.symm h0)
    have hnin : ¬(p.numMinOk ≤ p.value ∧ p.value ≤ p.numMaxOk) := by
      intro hin
      rw [(rd_eq_zero_iff _ _ _).mpr hin] at hpos
      exact lt_irrefl 0 hpos
    simp only [rangeState, hf, Bool.false_eq_true, if_false]
    rw [if_neg hnin, if_neg h0]
    rcases rd_pos_outside _ _ _ hpos with hlt | hgt
    · have hdv := rd_of_lt _ _ _ hmm hlt
      by_cases hw : rangeDistance p.numMinOk p.numMaxOk p.value ≤
          (p.numMaxOk - p.numMinOk) * p.percWarning
      · rw [if_pos hw, if_pos]
        exact Or.inl ⟨by linarith, hlt⟩
      · rw [if_neg hw, if_neg]
        rintro (⟨h1, h2⟩ | ⟨h1, h2⟩)
        · exact hw (by linarith)
        · linarith
    · have hdv := rd_of_gt _ _ _ hmm hgt
      by_cases hw : rangeDistance p.numMinOk p.numMaxOk p.value ≤
          (p.numMaxOk - p.numMinOk) * p.percWarning
      · rw [if_pos hw, if_pos]
        exact Or.inr ⟨hgt, by linarith⟩
      · rw [if_neg hw, if_neg]
        rintro (⟨h1, h2⟩ | ⟨h1, h2⟩)
        · linarith
        · exact hw (by linarith)

theorem rangeState_flipped_alert (p : Parameter) (hf : p.flipWarning = true)
    (h : p.value < p.numMinOk ∨ p.numMaxOk < p.value) : rangeState p = .IPS_ALERT := by
  simp only [rangeState, hf, if_true]
  rw [if_pos h]

theorem rangeState_mono (p : Parameter) (hmm : p.numMinOk ≤ p.numMaxOk) (v1 v2 : ℚ)
    (hd : rangeDistance p.numMinOk p.numMaxOk v1 < rangeDistance p.numMinOk p.numMaxOk v2) :
    severityRank (rangeState { p with value := v1 }) ≤
      severityRank (rangeState { p with value := v2 }) := by
  have h2pos : 0 < rangeDistance p.numMinOk p.numMaxOk v2 :=
    lt_of_le_of_lt (rd_nonneg _ _ _) hd
  by_cases hf : p.flipWarning = true
  · have halert : rangeState { p with value := v2 } = .IPS_ALERT :=
      rangeState_flipped_alert _ hf (rd_pos_outside _ _ _ h2pos)
    rw [halert]
    exact severityRank_le_three _
  · have hf2 : p.flipWarning = false := by simpa using hf
    rw [rangeState_not_flipped_distance { p with value := v1 } hf2 hmm,
      rangeState_not_flipped_distance { p with value := v2 } hf2 hmm]
    dsimp only
    split_ifs <;> simp [severityRank] <;> linarith

/-- C9: for a registered parameter with numMinOk ≤ numMaxOk, the
classification of a value is non-decreasing in the distance of the value
from the Ok band, in the severity order Ok < Warning < Alert, in both
flipped and non-flipped modes: a value strictly farther from the band is
never classified less severely. -/
theorem classification_monotone_in_distance (s : Store) (name : String) (p : Parameter)
    (hfind : findParameter s name = some p) (hmm : p.numMinOk ≤ p.numMaxOk) (v1 v2 : ℚ)
    (hd : rangeDistance p.numMinOk p.numMaxOk v1 < rangeDistance p.numMinOk p.numMaxOk v2) :
    severityRank (checkParameterState (setParameterValue s name v1) name) ≤
      severityRank (checkParameterState (setParameterValue s name v2) name) := by
  have hname := findParameter_name s name p hfind
  have key : ∀ v : ℚ, checkParameterState (setParameterValue s name v) name =
      rangeState { p with value := v } := by
    intro v
    have hmap := findParameter_map s name
      (fun q => if q.name = name then { q with value := v } else q)
      (by intro q; by_cases h : q.name = name <;> simp [h])
    simp only [checkParameterState, setParameterValue]
    rw [hmap, hfind]
    simp [hname]
  rw [key v1, key v2]
  exact rangeState_mono p hmm v1 v2 hd

/-- Witness for C9: for the wind parameter, the value 10 (inside the band,
distance 0) is classified no more severely than the value 22 (distance 2). -/
theorem classification_monotone_in_distance_witness :
    severityRank (checkParameterState (setParameterValue windStore "wind" 10) "wind") ≤
      severityRank (checkParameterState (setParameterValue windStore "wind" 22) "wind") := by
  have h1 : rangeDistance (0 : ℚ) 20 10 = 0 := (rd_eq_zero_iff 0 20 10).mpr (by norm_num)
  have h2 : rangeDistance (0 : ℚ) 20 22 = 2 := by
    rw [rd_of_gt 0 20 22 (by norm_num) (by norm_num)]
    norm_num
  refine classification_monotone_in_distance windStore "wind" windParameter ?_
    (by norm_num [windParameter]) 10 22 ?_
  · norm_num [findParameter, windStore, addParameter, windParameter]
  · simp only [windParameter]
    rw [h1, h2]
    norm_num

end INDI
